import Mathlib

/-!
Shallow embedding of the `cacophony` terrain renderer (Rust, wasm/wgpu).

Modelling conventions:
* `u32` quantities (chunk size, canvas dimensions, counters) are `Nat`;
  `i32` quantities (client sizes, mouse coordinates) are `Int`.
* Floating-point values are modelled as exact numbers: the mesh-generation
  arithmetic (`f32`/`f64` in `wgpu_context.rs`) is carried out in `ℚ` so that
  concrete meshes can be evaluated, and the camera / noise arithmetic
  (trigonometry in `camera.rs`, `source.rs`) is carried out in `ℝ`.
* External collaborators (the HTML canvas, the wgpu surface, the host clock)
  enter as explicit parameters: `detect_resize` receives the client size the
  canvas would report, `Runtime.renderStep` receives the outcome the surface
  returns for the frame submission.
* A Rust panic (`.unwrap()` on an `Err`) is modelled by returning `none`.
-/

/-! ### util.rs -/

/-- Rust `get_expected_size` (`src/util.rs`): reads the canvas client size (an
`i32` pair), clamps each dimension below at 150 and casts to `u32`. The
client size is passed in as the two `Int` arguments. -/
def get_expected_size (clientWidth clientHeight : Int) : Nat × Nat :=
  ((max clientWidth 150).toNat, (max clientHeight 150).toNat)

/-! ### noise/source.rs -/

/-- Rust `TestSource::sample` (`src/noise/source.rs`):
`x.cos() * 0.5 + y.cos() * 0.5`; the seed parameter is ignored. -/
noncomputable def TestSource.sample (x y : ℝ) (_seed : Nat) : ℝ :=
  Real.cos x * 0.5 + Real.cos y * 0.5

/-! ### Mesh generation: `ChunkBuffers::generate` (`src/render/wgpu_context.rs`)

The point list and vertex list are built exactly as in the source; the
triangulation itself is delegated by the source to the external `delaunator`
crate and is not needed by the properties settled here.  The source computes
`size - 2` on `u32`, which underflows for `size < 2`; the embedding uses
truncating `Nat` subtraction and is only ever instantiated at `size ≥ 2`. -/

namespace ChunkBuffers

/-- The border points: for `i in 0..size` push `(i, 0)` and `(i, size-1)`,
then for `i in 1..size-1` push `(0, i)` and `(size-1, i)`. -/
def borderPoints (size : Nat) : List (ℚ × ℚ) :=
  ((List.range size).flatMap fun i =>
    [((i : ℚ), 0), ((i : ℚ), (size : ℚ) - 1)]) ++
  ((List.range (size - 2)).flatMap fun k =>
    [((0 : ℚ), ((k + 1 : Nat) : ℚ)), ((size : ℚ) - 1, ((k + 1 : Nat) : ℚ))])

/-- Rust `num_inner_points = ((size - 2) as f32 * density).ceil() as u32`. -/
def numInnerPoints (size : Nat) (density : ℚ) : Nat :=
  (Int.ceil (((size - 2 : Nat) : ℚ) * density)).toNat

/-- The interior grid: for `i, j in 0..num_inner_points`,
`ti = (i+1)/(size-1)`, `tj = (j+1)/(size-1)`, and the pushed point is
`(ti * (size+1), tj * (size+1))` — note the `size + 1` multiplier taken
verbatim from the source. -/
def interiorPoints (size : Nat) (density : ℚ) : List (ℚ × ℚ) :=
  let n := numInnerPoints size density
  (List.range n).flatMap fun i =>
    (List.range n).map fun j =>
      let ti : ℚ := ((i + 1 : Nat) : ℚ) / ((size : ℚ) - 1)
      let tj : ℚ := ((j + 1 : Nat) : ℚ) / ((size : ℚ) - 1)
      (ti * ((size + 1 : Nat) : ℚ), tj * ((size + 1 : Nat) : ℚ))

/-- The full point list handed to the triangulator: border first, then the
interior grid. -/
def generatePoints (size : Nat) (density : ℚ) : List (ℚ × ℚ) :=
  borderPoints size ++ interiorPoints size density

/-- Rust `Vertex` (`src/render/wgpu_context.rs`): position and uv, both 2d. -/
structure Vertex where
  position : ℚ × ℚ
  uv : ℚ × ℚ
deriving DecidableEq, Repr

/-- The vertex list built from the points:
`uv = (p.x / (size - 1), p.y / (size - 1))`. -/
def vertices (size : Nat) (density : ℚ) : List Vertex :=
  (generatePoints size density).map fun p =>
    { position := p
      uv := (p.1 / ((size : ℚ) - 1), p.2 / ((size : ℚ) - 1)) }

end ChunkBuffers

/-! ### Events: `src/render/event.rs` -/

/-- Rust `KeyboardKey` (`src/render/event.rs`). -/
inductive KeyboardKey where
  | Character : Char → KeyboardKey
  | Alt | AltGr | CapsLock | Control | Fn | FnLock | Hyper | Meta
  | NumLock | ScrollLock | Shift | Super | Symbol | SymbolLock | Dead
  | Unidentified
deriving DecidableEq, BEq, Repr

/-- Rust `KeyboardKey::extract`: the `match` on the raw key string, arm by arm.
The guard `s.len() == 1` is the Rust byte length, i.e. `utf8ByteSize`, and
`s.chars().next().unwrap()` is the first character. -/
def KeyboardKey.extract (key : String) : KeyboardKey :=
  if key = "Alt" then .Alt
  else if key = "AltGraph" then .AltGr
  else if key = "CapsLock" then .CapsLock
  else if key = "Control" then .Control
  else if key = "Fn" then .Fn
  else if key = "FnLock" then .FnLock
  else if key = "Hyper" then .Hyper
  else if key = "Meta" then .Meta
  else if key = "NumLock" then .Meta
  else if key = "ScrollLock" then .ScrollLock
  else if key = "Shift" then .Shift
  else if key = "Super" then .Super
  else if key = "Symbol" then .Symbol
  else if key = "SymbolLock" then .Symbol
  else if key = "Dead" then .Dead
  else if key.utf8ByteSize = 1 then .Character key.front
  else .Unidentified

/-- Rust `KeyboardEventData`: modifier flags plus the extracted key. -/
structure KeyboardEventData where
  alt_key : Bool
  ctrl_key : Bool
  shift_key : Bool
  meta_key : Bool
  key : KeyboardKey
deriving DecidableEq, Repr

/-- Rust `MouseButton`. -/
inductive MouseButton where
  | Left | Middle | Right
  | OtherButton : Nat → MouseButton
deriving DecidableEq, Repr

/-- Rust `MouseEventData`: modifier flags, button, movement delta and position. -/
structure MouseEventData where
  alt_key : Bool
  ctrl_key : Bool
  shift_key : Bool
  meta_key : Bool
  button : MouseButton
  movement_x : Int
  movement_y : Int
  x : Int
  y : Int
deriving DecidableEq, Repr

/-- Rust `CanvasResizeData`: old and new canvas dimensions (`u32`). -/
structure CanvasResizeData where
  old_width : Nat
  old_height : Nat
  new_width : Nat
  new_height : Nat
deriving DecidableEq, Repr

/-- Rust `Event`. -/
inductive Event where
  | KeyDown : KeyboardEventData → Event
  | KeyUp : KeyboardEventData → Event
  | MouseDown : MouseEventData → Event
  | MouseUp : MouseEventData → Event
  | MouseMove : MouseEventData → Event
  | CanvasResize : CanvasResizeData → Event
deriving DecidableEq, Repr

/-- Rust `EventQueue`: the pending events plus the canvas it owns, the canvas
modelled by its stored `width`/`height` attributes. -/
structure EventQueue where
  events : List Event
  canvasWidth : Nat
  canvasHeight : Nat
deriving DecidableEq, Repr

namespace EventQueue

/-- Rust `enqueue_inner`: push to the back of the queue. -/
def enqueue_inner (q : EventQueue) (e : Event) : EventQueue :=
  { q with events := q.events ++ [e] }

/-- Rust `detect_resize`: compare `get_expected_size(canvas)` with the stored
canvas size; on mismatch store the new size and enqueue one `CanvasResize`
whose `old_width`/`old_height` are read from the canvas *after* the update
(so they equal the new size, as in the source).  The canvas client size is
the pair of `Int` arguments. -/
def detect_resize (q : EventQueue) (clientWidth clientHeight : Int) : EventQueue :=
  let nw := (get_expected_size clientWidth clientHeight).1
  let nh := (get_expected_size clientWidth clientHeight).2
  if nw ≠ q.canvasWidth ∨ nh ≠ q.canvasHeight then
    { events := q.events ++ [Event.CanvasResize
        { old_width := nw, old_height := nh, new_width := nw, new_height := nh }]
      canvasWidth := nw
      canvasHeight := nh }
  else q

/-- Rust `pop`: take from the front of the queue. -/
def pop (q : EventQueue) : Option Event × EventQueue :=
  match q.events with
  | [] => (none, q)
  | e :: rest => (some e, { q with events := rest })

end EventQueue

/-- Rust `KeyTracker` (`src/render/event.rs`): the `HashMap<KeyboardKey, bool>`
modelled as an association list where insertion prepends (lookup finds the
most recent binding, matching `HashMap::insert` semantics). -/
structure KeyTracker where
  keys : List (KeyboardKey × Bool)
deriving Repr

namespace KeyTracker

/-- Rust `KeyTracker::new`. -/
def new : KeyTracker := { keys := [] }

/-- Rust `set_key_down`: insert `(key, true)`. -/
def set_key_down (t : KeyTracker) (key : KeyboardKey) : KeyTracker :=
  { keys := (key, true) :: t.keys }

/-- Rust `set_key_up`: insert `(key, false)`. -/
def set_key_up (t : KeyTracker) (key : KeyboardKey) : KeyTracker :=
  { keys := (key, false) :: t.keys }

/-- Rust `is_key_down`: `*self.keys.get(&key).unwrap_or(&false)`. -/
def is_key_down (t : KeyTracker) (key : KeyboardKey) : Bool :=
  (t.keys.lookup key).getD false

end KeyTracker

/-! ### Camera: `src/render/camera.rs`

`cgmath` vectors over `f32` are modelled as triples of reals. -/

/-- A 3d vector (`cgmath::Vector3<f32>` / `cgmath::Point3<f32>`). -/
structure Vec3 where
  x : ℝ
  y : ℝ
  z : ℝ

namespace Vec3

/-- Componentwise addition. -/
noncomputable def add (a b : Vec3) : Vec3 := ⟨a.x + b.x, a.y + b.y, a.z + b.z⟩

/-- Scaling by a scalar (`v * k` in cgmath). -/
noncomputable def scale (a : Vec3) (k : ℝ) : Vec3 := ⟨a.x * k, a.y * k, a.z * k⟩

/-- Cross product, cgmath convention. -/
noncomputable def cross (a b : Vec3) : Vec3 :=
  ⟨a.y * b.z - a.z * b.y, a.z * b.x - a.x * b.z, a.x * b.y - a.y * b.x⟩

/-- Rust `magnitude` = `sqrt (dot self self)`. -/
noncomputable def magnitude (a : Vec3) : ℝ :=
  Real.sqrt (a.x * a.x + a.y * a.y + a.z * a.z)

/-- Rust `normalize` = `self * (1 / magnitude)`. -/
noncomputable def normalize (a : Vec3) : Vec3 := a.scale (1 / a.magnitude)

end Vec3

/-- Rust `Camera` (`src/render/camera.rs`). -/
structure Camera where
  eye : Vec3
  up : Vec3
  pitch : ℝ
  yaw : ℝ
  aspect : ℝ
  fovy : ℝ
  znear : ℝ
  zfar : ℝ

namespace Camera

/-- Rust `Camera::new`: `znear = 0.01`, `zfar = 1000.0`. -/
noncomputable def new (eye up : Vec3) (pitch yaw aspect fovy : ℝ) : Camera :=
  { eye := eye, up := up, pitch := pitch, yaw := yaw, aspect := aspect,
    fovy := fovy, znear := 0.01, zfar := 1000.0 }

/-- Rust `get_direction`: spherical-to-Cartesian from yaw and pitch. -/
noncomputable def get_direction (c : Camera) : Vec3 :=
  ⟨Real.cos c.yaw * Real.cos c.pitch, Real.sin c.pitch,
   Real.sin c.yaw * Real.cos c.pitch⟩

/-- Rust `get_forward`: the planar forward vector `(cos yaw, 0, sin yaw)`. -/
noncomputable def get_forward (c : Camera) : Vec3 :=
  ⟨Real.cos c.yaw, 0, Real.sin c.yaw⟩

/-- Rust `do_move`: translate `eye` along the planar forward vector, the
normalized cross of forward and up, and the normalized up vector, each
scaled by the respective caller-supplied delta. -/
noncomputable def do_move (c : Camera) (forward right up : ℝ) : Camera :=
  let fvec := c.get_forward.scale forward
  let rvec := ((c.get_forward.cross c.up).normalize).scale right
  let uvec := (c.up.normalize).scale up
  { c with eye := ((c.eye.add fvec).add rvec).add uvec }

end Camera

/-! ### Runtime: `src/render/runtime.rs` -/

/-- The wgpu surface/config dimensions owned by `WgpuContext`; `resize`
applies a new size only when both dimensions are positive. -/
structure WgpuContext where
  width : Nat
  height : Nat
deriving DecidableEq, Repr

/-- Rust `WgpuContext::resize`: guard `new_size.width > 0 && new_size.height > 0`,
then store the new size (both in `self.size` and `self.config`). -/
def WgpuContext.resize (c : WgpuContext) (newWidth newHeight : Nat) : WgpuContext :=
  if 0 < newWidth ∧ 0 < newHeight then ⟨newWidth, newHeight⟩ else c

/-- Rust `wgpu::SurfaceError`: the error variants a frame submission can return. -/
inductive SurfaceError where
  | Timeout | Outdated | Lost | OutOfMemory
deriving DecidableEq, Repr

/-- Rust `Runtime`: the per-frame state (context, event queue, frame counter,
previous timestamp, camera, key tracker).  The self-reference and the
render closure are host-scheduling glue with no bearing on the state
transition and carry no data here beyond the "next frame requested" flag. -/
structure Runtime where
  context : WgpuContext
  event_queue : EventQueue
  frames : Nat
  last_frame : ℝ
  camera : Camera
  keyboard : KeyTracker
  animation_frame_requested : Bool

namespace Runtime

/-- Rust `Runtime::handle_event`: the `match` over the drained event.
`CanvasResize` resizes the context and sets the aspect ratio to
`new_width / new_height`; `MouseMove` adds `movement_x * 0.002` to yaw,
subtracts `movement_y * 0.002` from pitch and clamps pitch to
`[-3.14/2, 3.14/2]`; `KeyDown`/`KeyUp` update the key tracker; mouse
button events do nothing. -/
noncomputable def handle_event (s : Runtime) (e : Event) : Runtime :=
  match e with
  | .CanvasResize d =>
      { s with context := s.context.resize d.new_width d.new_height,
               camera := { s.camera with
                 aspect := (d.new_width : ℝ) / (d.new_height : ℝ) } }
  | .MouseMove m =>
      let yaw := s.camera.yaw + (m.movement_x : ℝ) * 0.002
      let pitch0 := s.camera.pitch - (m.movement_y : ℝ) * 0.002
      let pitch :=
        if pitch0 > 3.14 / 2 then 3.14 / 2
        else if pitch0 < -3.14 / 2 then -3.14 / 2
        else pitch0
      { s with camera := { s.camera with yaw := yaw, pitch := pitch } }
  | .KeyDown d => { s with keyboard := s.keyboard.set_key_down d.key }
  | .KeyUp d => { s with keyboard := s.keyboard.set_key_up d.key }
  | _ => s

/-- The movement-derivation and `do_move` call of `Runtime::render`
(lines 74–99): W/S add to forward, A/D to strafe, Shift/Space to vertical,
then `do_move(SPEED * forward * dt, SPEED * right * dt, SPEED * up * dt)`
with `SPEED = 0.5`. -/
noncomputable def frame_movement (keyboard : KeyTracker) (dt : ℝ)
    (camera : Camera) : Camera :=
  let forward : ℝ := 0
  let forward := if keyboard.is_key_down (.Character 'w') then forward + 1 else forward
  let forward := if keyboard.is_key_down (.Character 's') then forward - 1 else forward
  let right : ℝ := 0
  let right := if keyboard.is_key_down (.Character 'a') then right - 1 else right
  let right := if keyboard.is_key_down (.Character 'd') then right + 1 else right
  let upd : ℝ := 0
  let upd := if keyboard.is_key_down .Shift then upd - 1 else upd
  let upd := if keyboard.is_key_down (.Character ' ') then upd + 1 else upd
  camera.do_move (0.5 * forward * dt) (0.5 * right * dt) (0.5 * upd * dt)

/-- Rust `Runtime::render`, one frame: compute `dt`, run resize detection, drain
the event queue front-to-back through `handle_event`, apply the key-state
movement to the camera, then submit the draw.  The canvas client size and
the surface submission outcome are external inputs and enter as parameters;
`context.render(..).unwrap()` panics on a `SurfaceError`, modelled by
returning `none` (the frame counter is not advanced and no further frame is
requested). -/
noncomputable def renderStep (s : Runtime) (time : ℝ)
    (clientWidth clientHeight : Int)
    (surfaceResult : Option SurfaceError) : Option Runtime :=
  let dt := (time - s.last_frame) / 1000
  let s := { s with last_frame := time }
  let q := s.event_queue.detect_resize clientWidth clientHeight
  let s := q.events.foldl handle_event
    { s with event_queue := { q with events := [] } }
  let s := { s with camera := frame_movement s.keyboard dt s.camera }
  match surfaceResult with
  | some _ => none
  | none => some { s with frames := s.frames + 1, animation_frame_requested := true }

end Runtime

/-- An interleaving of the two kinds of camera mutation the Runtime
performs: folding a drained event (`Runtime::handle_event`) or applying a
per-frame movement (`Camera::do_move`). -/
inductive Op where
  | ev : Event → Op
  | mv : ℝ → ℝ → ℝ → Op

/-- Apply one `Op` to the runtime state. -/
noncomputable def Runtime.applyOp (s : Runtime) : Op → Runtime
  | .ev e => s.handle_event e
  | .mv f r u => { s with camera := s.camera.do_move f r u }

/-- Apply a sequence of `Op`s front-to-back. -/
noncomputable def Runtime.applyOps (s : Runtime) (ops : List Op) : Runtime :=
  ops.foldl Runtime.applyOp s

/-- The runtime state right after startup (`main.rs`): camera at
`(0, 1, 0)`, up `(0, 1, 0)`, pitch and yaw `0`, fovy `45`, a square canvas,
empty queue, no key held, frame counter and timestamp `0`. -/
noncomputable def initialRuntime : Runtime :=
  { context := ⟨150, 150⟩
    event_queue := ⟨[], 150, 150⟩
    frames := 0
    last_frame := 0
    camera := Camera.new ⟨0, 1, 0⟩ ⟨0, 1, 0⟩ 0 0 1 45
    keyboard := KeyTracker.new
    animation_frame_requested := false }

/-! Sanity examples (evaluated during development, statements kept as
anonymous checks). -/

example : ChunkBuffers.numInnerPoints 3 1 = 1 := by
  simp [ChunkBuffers.numInnerPoints]
example : ChunkBuffers.interiorPoints 3 1 = [(2, 2)] := by
  simp [ChunkBuffers.interiorPoints, ChunkBuffers.numInnerPoints, List.range_succ]
  norm_num
example : ChunkBuffers.borderPoints 2 =
    [(0, 0), (0, 1), (1, 0), (1, 1)] := by
  simp [ChunkBuffers.borderPoints, List.range_succ]
  norm_num
example : KeyboardKey.extract "Shift" = KeyboardKey.Shift := by decide
example : KeyboardKey.extract "w" = KeyboardKey.Character 'w' := by decide
example : KeyboardKey.extract "F13" = KeyboardKey.Unidentified := by decide

/-! ## Helper lemmas -/

theorem Vec3.ext3 {a b : Vec3} (hx : a.x = b.x) (hy : a.y = b.y)
    (hz : a.z = b.z) : a = b := by
  cases a; cases b; simp_all

/-- The clamp constant written in `Runtime::handle_event` is strictly below
the pole: `3.14 / 2 < π / 2`. -/
theorem clamp_lt_pi_half : (3.14 : ℝ) / 2 < Real.pi / 2 := by
  have h := Real.pi_gt_d6
  norm_num at h
  linarith

theorem neg_pi_half_lt_neg_clamp : -(Real.pi / 2) < -(3.14 : ℝ) / 2 := by
  have h := Real.pi_gt_d6
  norm_num at h
  linarith

/-- Rust `handle_event` leaves the frame counter alone. -/
theorem handle_event_frames (s : Runtime) (e : Event) :
    (s.handle_event e).frames = s.frames := by
  cases e <;> rfl

/-- Draining any event list leaves the frame counter alone. -/
theorem foldl_handle_event_frames (evs : List Event) (s : Runtime) :
    (evs.foldl Runtime.handle_event s).frames = s.frames := by
  induction evs generalizing s with
  | nil => rfl
  | cons e rest ih => rw [List.foldl_cons, ih, handle_event_frames]

/-! ## Claims -/

/-- Claim C5: `KeyboardKey::extract` maps the raw string `"NumLock"` to the
`Meta` variant and `"SymbolLock"` to the `Symbol` variant, not to the
same-named `NumLock` / `SymbolLock` variants the enumeration declares
(those two variants are unreachable from `extract`). -/
theorem c5_extract_numlock_symbollock :
    KeyboardKey.extract "NumLock" = KeyboardKey.Meta ∧
    KeyboardKey.extract "SymbolLock" = KeyboardKey.Symbol ∧
    KeyboardKey.Meta ≠ KeyboardKey.NumLock ∧
    KeyboardKey.Symbol ≠ KeyboardKey.SymbolLock := by
  refine ⟨rfl, rfl, ?_, ?_⟩ <;> decide

/-- Claim C6: `detect_resize`: when the expected canvas size differs from the
stored one, exactly one `CanvasResize` event is appended, and its
`old_width`/`old_height` equal the post-update (new) dimensions; when the
sizes agree, the queue (and whole state) is unchanged. -/
theorem c6_detect_resize_spec (cw ch : Int) (q : EventQueue) :
    (get_expected_size cw ch ≠ (q.canvasWidth, q.canvasHeight) →
      (q.detect_resize cw ch).events = q.events ++ [Event.CanvasResize
        { old_width := (get_expected_size cw ch).1
          old_height := (get_expected_size cw ch).2
          new_width := (get_expected_size cw ch).1
          new_height := (get_expected_size cw ch).2 }] ∧
      (q.detect_resize cw ch).canvasWidth = (get_expected_size cw ch).1 ∧
      (q.detect_resize cw ch).canvasHeight = (get_expected_size cw ch).2) ∧
    (get_expected_size cw ch = (q.canvasWidth, q.canvasHeight) →
      q.detect_resize cw ch = q) := by
  simp only [EventQueue.detect_resize]
  split_ifs with hc
  · refine ⟨fun _ => ⟨rfl, rfl, rfl⟩, fun heq => ?_⟩
    exfalso
    rcases hc with h | h
    · exact h (congrArg Prod.fst heq)
    · exact h (congrArg Prod.snd heq)
  · push_neg at hc
    refine ⟨fun hne => absurd ?_ hne, fun _ => rfl⟩
    exact Prod.ext_iff.mpr ⟨hc.1, hc.2⟩

/-- Witness for C6 at a concrete input: canvas stores 150×150, the client
reports 200×300, so one `CanvasResize` carrying old = new = (200, 300) is
enqueued. -/
theorem c6_detect_resize_witness :
    (EventQueue.detect_resize ⟨[], 150, 150⟩ 200 300).events =
      [] ++ [Event.CanvasResize ⟨200, 300, 200, 300⟩] := by
  have h := (c6_detect_resize_spec 200 300 ⟨[], 150, 150⟩).1 (by decide)
  simpa [get_expected_size] using h.1

/-- Claim C10: Every event present after a `detect_resize` call was either
already queued or is a `CanvasResize` whose new dimensions are at least
150 each (the clamp in `get_expected_size`); for such dimensions the
positive-size guard in `WgpuContext::resize` always passes, so the resize
is applied unconditionally on that path. -/
theorem c10_resize_events_clamped (cw ch : Int) (q : EventQueue) (e : Event)
    (he : e ∈ (q.detect_resize cw ch).events) :
    e ∈ q.events ∨ ∃ d : CanvasResizeData, e = Event.CanvasResize d ∧
      150 ≤ d.new_width ∧ 150 ≤ d.new_height ∧
      ∀ ctx : WgpuContext,
        ctx.resize d.new_width d.new_height = ⟨d.new_width, d.new_height⟩ := by
  have hw : (150 : Nat) ≤ (get_expected_size cw ch).1 := by
    have h150 : (150 : Int) ≤ max cw 150 := le_max_right _ _
    have := Int.toNat_le_toNat h150
    simp only [get_expected_size]
    omega
  have hh : (150 : Nat) ≤ (get_expected_size cw ch).2 := by
    have h150 : (150 : Int) ≤ max ch 150 := le_max_right _ _
    have := Int.toNat_le_toNat h150
    simp only [get_expected_size]
    omega
  simp only [EventQueue.detect_resize] at he
  split_ifs at he with hc
  · simp only [List.mem_append, List.mem_singleton] at he
    rcases he with h | h
    · exact Or.inl h
    · refine Or.inr ⟨_, h, hw, hh, fun ctx => ?_⟩
      have h1 : 0 < (get_expected_size cw ch).1 := by omega
      have h2 : 0 < (get_expected_size cw ch).2 := by omega
      unfold WgpuContext.resize
      rw [if_pos ⟨h1, h2⟩]
  · exact Or.inl he

/-- Witness for C10 at a concrete input: the event produced for a 200×300
client report indeed carries clamped-above-150 dimensions. -/
theorem c10_resize_events_clamped_witness :
    Event.CanvasResize ⟨200, 300, 200, 300⟩ ∈
      (EventQueue.detect_resize ⟨[], 150, 150⟩ 200 300).events ∧
    ((Event.CanvasResize ⟨200, 300, 200, 300⟩ ∈ ([] : List Event)) ∨
      ∃ d : CanvasResizeData,
        Event.CanvasResize ⟨200, 300, 200, 300⟩ = Event.CanvasResize d ∧
        150 ≤ d.new_width ∧ 150 ≤ d.new_height ∧
        ∀ ctx : WgpuContext,
          ctx.resize d.new_width d.new_height = ⟨d.new_width, d.new_height⟩) :=
  ⟨by decide,
   c10_resize_events_clamped 200 300 ⟨[], 150, 150⟩
     (Event.CanvasResize ⟨200, 300, 200, 300⟩) (by decide)⟩

/-- Claim C1: Refuted as stated: at `size = 4`, `density = 1` the mesh
contains a vertex whose uv coordinates exceed 1 (the interior point
`(10/3, 10/3)` produced by the `ti * (size + 1)` multiplier normalizes to
uv `(10/9, 10/9)`), so not every vertex uv lies in `[0,1] × [0,1]`. -/
theorem c1_uv_escapes_unit_square :
    ∃ v ∈ ChunkBuffers.vertices 4 1, 1 < v.uv.1 ∧ 1 < v.uv.2 := by
  refine ⟨⟨(10/3, 10/3), (10/9, 10/9)⟩, ?_, by norm_num, by norm_num⟩
  simp [ChunkBuffers.vertices, ChunkBuffers.generatePoints,
    ChunkBuffers.borderPoints, ChunkBuffers.interiorPoints,
    ChunkBuffers.numInnerPoints, List.range_succ]
  norm_num

/-- Claim C3: Refuted as stated: at `size = 3`, `density = 1` the single
interior point is `(2, 2)`, which lies on the chunk boundary
(`x = size - 1 = 2`, so `x < size - 1` fails) and coincides with the
border point `(2, 2)`, violating "strictly inside" and "no two generated
points coincide". -/
theorem c3_interior_point_on_border :
    ChunkBuffers.interiorPoints 3 1 = [(2, 2)] ∧
    (2, 2) ∈ ChunkBuffers.borderPoints 3 ∧
    ¬((2 : ℚ) < (3 : ℚ) - 1) := by
  refine ⟨?_, ?_, by norm_num⟩
  · simp [ChunkBuffers.interiorPoints, ChunkBuffers.numInnerPoints,
      List.range_succ]
    norm_num
  · simp [ChunkBuffers.borderPoints, List.range_succ]
    norm_num

/-- Claim C4 counterexample: At `size = 2 < 3` the density yields zero
interior points, yet generation does not fail: it produces a mesh of 4
border vertices (`ChunkBuffers::generate` has no error path at all), so
"triangulation must fail with a `DegenerateInputError` rather than
producing a mesh" is false of the code. -/
theorem c4_size_two_produces_mesh :
    (2 : Nat) < 3 ∧ ChunkBuffers.numInnerPoints 2 1 = 0 ∧
    (ChunkBuffers.vertices 2 1).length = 4 := by
  refine ⟨by norm_num, ?_, ?_⟩
  · simp [ChunkBuffers.numInnerPoints]
  · simp [ChunkBuffers.vertices, ChunkBuffers.generatePoints,
      ChunkBuffers.borderPoints, ChunkBuffers.interiorPoints,
      ChunkBuffers.numInnerPoints, List.range_succ]

/-- Claim C4 amended: For `size = 2` (below the guarded minimum 3) and any
density in `(0, 1]`, generation yields zero interior points and still
returns a mesh built from the 4 border points; no error is raised (the
generator is total). -/
theorem c4_no_failure_small_size (d : ℚ) (_h0 : 0 < d) (_h1 : d ≤ 1) :
    ChunkBuffers.numInnerPoints 2 d = 0 ∧
    (ChunkBuffers.vertices 2 d).length = 4 := by
  have hn : ChunkBuffers.numInnerPoints 2 d = 0 := by
    simp [ChunkBuffers.numInnerPoints]
  refine ⟨hn, ?_⟩
  simp [ChunkBuffers.vertices, ChunkBuffers.generatePoints,
    ChunkBuffers.borderPoints, ChunkBuffers.interiorPoints, hn, List.range_succ]

/-- Witness for the amended C4 at `density = 1`. -/
theorem c4_no_failure_small_size_witness :
    ChunkBuffers.numInnerPoints 2 1 = 0 ∧
    (ChunkBuffers.vertices 2 1).length = 4 :=
  c4_no_failure_small_size 1 (by norm_num) (by norm_num)

/-- Claim C9: The reference noise source is a pure function: identical
arguments give identical results, the sample always lies in `[-1, 1]`, and
`sample (0, 0, seed)` is the fixed constant `1` for every seed. -/
theorem c9_sample_pure_bounded (x y : ℝ) (seed : Nat) :
    TestSource.sample x y seed = TestSource.sample x y seed ∧
    -1 ≤ TestSource.sample x y seed ∧ TestSource.sample x y seed ≤ 1 ∧
    TestSource.sample 0 0 seed = 1 := by
  refine ⟨rfl, ?_, ?_, ?_⟩
  · have h1 := Real.neg_one_le_cos x
    have h2 := Real.neg_one_le_cos y
    simp only [TestSource.sample]
    linarith
  · have h1 := Real.cos_le_one x
    have h2 := Real.cos_le_one y
    simp only [TestSource.sample]
    linarith
  · simp [TestSource.sample]
    norm_num

/-- One event step keeps the pitch strictly between the poles: `MouseMove`
clamps the new pitch into `[-3.14/2, 3.14/2] ⊂ (-π/2, π/2)`, every other
event leaves the pitch untouched. -/
theorem handle_event_pitch_bound (s : Runtime) (e : Event)
    (h1 : -(Real.pi / 2) < s.camera.pitch) (h2 : s.camera.pitch < Real.pi / 2) :
    -(Real.pi / 2) < (s.handle_event e).camera.pitch ∧
      (s.handle_event e).camera.pitch < Real.pi / 2 := by
  have hc := clamp_lt_pi_half
  have hnc := neg_pi_half_lt_neg_clamp
  have hlt : (-3.14 : ℝ) / 2 < 3.14 / 2 := by norm_num
  cases e with
  | MouseMove m =>
      simp only [Runtime.handle_event]
      split_ifs with hgt hsm
      · exact ⟨by linarith, by linarith⟩
      · exact ⟨by linarith, by linarith⟩
      · exact ⟨by linarith, by linarith⟩
  | CanvasResize d => exact ⟨h1, h2⟩
  | KeyDown d => exact ⟨h1, h2⟩
  | KeyUp d => exact ⟨h1, h2⟩
  | MouseDown d => exact ⟨h1, h2⟩
  | MouseUp d => exact ⟨h1, h2⟩

/-- Claim C7: Starting from a camera whose pitch lies strictly between
`-π/2` and `π/2` (the initial pitch is 0), any sequence of event handlings
(`Runtime::handle_event`) and movement updates (`Camera::do_move`) leaves
the pitch strictly between `-π/2` and `π/2`: the clamp constant `3.14/2`
is strictly below `π/2`, and movement never touches the pitch. -/
theorem c7_pitch_between (s : Runtime) (ops : List Op)
    (h1 : -(Real.pi / 2) < s.camera.pitch) (h2 : s.camera.pitch < Real.pi / 2) :
    -(Real.pi / 2) < (s.applyOps ops).camera.pitch ∧
      (s.applyOps ops).camera.pitch < Real.pi / 2 := by
  induction ops generalizing s with
  | nil => exact ⟨h1, h2⟩
  | cons op rest ih =>
      simp only [Runtime.applyOps, List.foldl_cons] at ih ⊢
      cases op with
      | ev e =>
          exact ih _ (handle_event_pitch_bound s e h1 h2).1
            (handle_event_pitch_bound s e h1 h2).2
      | mv f r u => exact ih _ h1 h2

/-- Witness for C7: from the startup state (pitch 0), a large downward
mouse drag followed by a movement update keeps the pitch inside
`(-π/2, π/2)`. -/
theorem c7_pitch_between_witness :
    -(Real.pi / 2) <
      (Runtime.applyOps initialRuntime
        [Op.ev (Event.MouseMove ⟨false, false, false, false, .Left, 0, -1000, 0, 0⟩),
         Op.mv 1 0 0]).camera.pitch ∧
      (Runtime.applyOps initialRuntime
        [Op.ev (Event.MouseMove ⟨false, false, false, false, .Left, 0, -1000, 0, 0⟩),
         Op.mv 1 0 0]).camera.pitch < Real.pi / 2 :=
  c7_pitch_between initialRuntime
    [Op.ev (Event.MouseMove ⟨false, false, false, false, .Left, 0, -1000, 0, 0⟩),
     Op.mv 1 0 0]
    (by have h := Real.pi_pos
        simp only [initialRuntime, Camera.new]
        linarith)
    (by have h := Real.pi_pos
        simp only [initialRuntime, Camera.new]
        linarith)

/-- Claim C8: Folding a KeyDown for `'w'` into a fresh key state and running
one frame tick with `dt = 0.1` and speed constant `0.5` translates the eye
by exactly `0.05` along the planar forward vector `(cos yaw, 0, sin yaw)`,
which is a unit vector; the vertical component of the eye is unchanged. -/
theorem c8_keydown_w_moves_eye (context : WgpuContext) (q : EventQueue)
    (frames : Nat) (lastFrame : ℝ) (c : Camera) (flag : Bool) :
    (Runtime.mk context q frames lastFrame c KeyTracker.new flag).handle_event
        (Event.KeyDown ⟨false, false, false, false, .Character 'w'⟩) =
      Runtime.mk context q frames lastFrame c
        (KeyTracker.new.set_key_down (.Character 'w')) flag ∧
    (Runtime.frame_movement (KeyTracker.new.set_key_down (.Character 'w'))
        0.1 c).eye = c.eye.add (c.get_forward.scale 0.05) ∧
    c.get_forward.magnitude = 1 ∧
    (Runtime.frame_movement (KeyTracker.new.set_key_down (.Character 'w'))
        0.1 c).eye.y = c.eye.y := by
  have hw : (KeyTracker.new.set_key_down (KeyboardKey.Character 'w')).is_key_down
      (.Character 'w') = true := rfl
  have hs : (KeyTracker.new.set_key_down (KeyboardKey.Character 'w')).is_key_down
      (.Character 's') = false := rfl
  have ha : (KeyTracker.new.set_key_down (KeyboardKey.Character 'w')).is_key_down
      (.Character 'a') = false := rfl
  have hd : (KeyTracker.new.set_key_down (KeyboardKey.Character 'w')).is_key_down
      (.Character 'd') = false := rfl
  have hsh : (KeyTracker.new.set_key_down (KeyboardKey.Character 'w')).is_key_down
      .Shift = false := rfl
  have hsp : (KeyTracker.new.set_key_down (KeyboardKey.Character 'w')).is_key_down
      (.Character ' ') = false := rfl
  have hmag : c.get_forward.magnitude = 1 := by
    have hsq := Real.sin_sq_add_cos_sq c.yaw
    simp only [Camera.get_forward, Vec3.magnitude]
    rw [show Real.cos c.yaw * Real.cos c.yaw + 0 * 0 +
        Real.sin c.yaw * Real.sin c.yaw = 1 by nlinarith [hsq]]
    exact Real.sqrt_one
  have heye : (Runtime.frame_movement (KeyTracker.new.set_key_down (.Character 'w'))
      0.1 c).eye = c.eye.add (c.get_forward.scale 0.05) := by
    simp only [Runtime.frame_movement, hw, hs, ha, hd, hsh, hsp, if_true,
      Bool.false_eq_true, if_false, Camera.do_move, Camera.get_forward,
      Vec3.add, Vec3.scale, Vec3.cross, Vec3.normalize, Vec3.magnitude]
    apply Vec3.ext3 <;> · simp only []; ring_nf
  refine ⟨rfl, heye, hmag, ?_⟩
  rw [heye]
  simp only [Vec3.add, Vec3.scale, Camera.get_forward]
  ring

/-- Claim C2 counterexample: When the surface submission for a frame fails
(`SurfaceError::Lost`), `Runtime::render` does not survive it: the
`.unwrap()` panics, so no post-frame state exists and no next frame is
scheduled — refuting "the frame loop is not terminated and the next frame
is still scheduled". -/
theorem c2_surface_error_kills_loop :
    ¬ ∃ s2 : Runtime, Runtime.renderStep initialRuntime 16 150 150
        (some SurfaceError.Lost) = some s2 := by
  rintro ⟨s2, h⟩
  have h0 : Runtime.renderStep initialRuntime 16 150 150
      (some SurfaceError.Lost) = none := rfl
  rw [h0] at h
  exact Option.noConfusion h

/-- Claim C2 amended: On any `SurfaceError` the frame step panics (no
successor state, no next frame request, frame counter frozen); only a
successful submission yields a next state, which increments the frame
counter and requests the next animation frame. -/
theorem c2_surface_error_panics (s : Runtime) (time : ℝ) (cw ch : Int) :
    (∀ e : SurfaceError, s.renderStep time cw ch (some e) = none) ∧
    (∃ s2 : Runtime, s.renderStep time cw ch none = some s2 ∧
      s2.animation_frame_requested = true ∧ s2.frames = s.frames + 1) := by
  constructor
  · intro e
    rfl
  · refine ⟨_, rfl, rfl, ?_⟩
    simp [Runtime.renderStep, foldl_handle_event_frames]
